import Mathlib

/-!
Shallow embedding of the Datto RMM MCP server (`src/index.ts`) and proofs
about its credential resolution, bounded collection, and tool dispatch.

Modelling conventions:
* JavaScript `string | undefined` environment variables and optional
  arguments are `Option String`; JavaScript truthiness of such a value
  (`undefined` and `""` are falsy) is `strTruthy`.
* The `max` tool argument is a JavaScript number that may be absent; it is
  modelled as `Option JsNum` where `JsNum` is an integer or `NaN`
  (the only falsiness-relevant non-integer).  `a || b` on it is `resolveMax`.
* The upstream `DattoRmmClient` is opaque: it is a record of functions, one
  per resource operation used by the dispatcher, each returning
  `Except Thrown _`.  The lazy async iterables returned by the `*All`
  operations are modelled as finite `List Json` results; a throw during
  iteration is modelled as the call itself being an `Except.error`.
* Each dispatch is instrumented with a `Trace` recording whether the client
  was constructed, which upstream operations were invoked (in order), and
  the bounds passed to the bounded collector `collectItems`.
-/

set_option maxHeartbeats 1000000

/-- JSON values, the domain payloads returned by the upstream client. -/
inductive Json where
  | null : Json
  | bool (b : Bool) : Json
  | num (n : Int) : Json
  | str (s : String) : Json
  | arr (elems : List Json) : Json
  | obj (fields : List (String × Json)) : Json

mutual

/-- Compact model of `JSON.stringify(x, null, 2)`; the claims never inspect
the rendering of a successful payload, so whitespace is immaterial. -/
def jsonStringify : Json → String
  | Json.null => "null"
  | Json.bool b => cond b "true" "false"
  | Json.num n => toString n
  | Json.str s => "\x22" ++ s ++ "\x22"
  | Json.arr xs => "[" ++ jsonStringifyArray xs ++ "]"
  | Json.obj fs => "\x7b" ++ jsonStringifyFields fs ++ "\x7d"

def jsonStringifyArray : List Json → String
  | [] => ""
  | [x] => jsonStringify x
  | x :: y :: xs => jsonStringify x ++ "," ++ jsonStringifyArray (y :: xs)

def jsonStringifyFields : List (String × Json) → String
  | [] => ""
  | [(k, v)] => "\x22" ++ k ++ "\x22:" ++ jsonStringify v
  | (k, v) :: f :: fs =>
      "\x22" ++ k ++ "\x22:" ++ jsonStringify v ++ "," ++ jsonStringifyFields (f :: fs)

end

/-- JavaScript truthiness of a `string | undefined` value: `undefined` and
the empty string are falsy. -/
def strTruthy : Option String → Bool
  | none => false
  | some s => s ≠ ""

/-- JavaScript `a || b` on `string | undefined` values. -/
def jsOr (a b : Option String) : Option String :=
  if strTruthy a then a else b

/-- The process environment variables read by `getCredentials`
(`src/index.ts` lines 49-51). -/
structure Env where
  DATTO_API_KEY : Option String
  X_API_KEY : Option String
  DATTO_API_SECRET : Option String
  X_API_SECRET : Option String
  DATTO_PLATFORM : Option String
deriving DecidableEq

/-- The resolved credential triple (`interface DattoCredentials`). -/
structure DattoCredentials where
  apiKey : String
  apiSecretKey : String
  platform : String
deriving DecidableEq

/-- The closed enumeration of valid platforms (`src/index.ts` line 58). -/
def validPlatforms : List String :=
  ["pinotage", "merlot", "concord", "vidal", "zinfandel", "syrah"]

/-- `getCredentials` (`src/index.ts` lines 48-64): resolve key and secret
through the primary/alias pairs, return `none` when either is falsy, and
soft-fall back to platform `"concord"` when `DATTO_PLATFORM` is falsy or not
in `validPlatforms`. -/
def getCredentials (env : Env) : Option DattoCredentials :=
  let apiKey := jsOr env.DATTO_API_KEY env.X_API_KEY
  let apiSecretKey := jsOr env.DATTO_API_SECRET env.X_API_SECRET
  let platformEnv := (jsOr env.DATTO_PLATFORM (some "concord")).getD "concord"
  if strTruthy apiKey && strTruthy apiSecretKey then
    let platform := if platformEnv ∈ validPlatforms then platformEnv else "concord"
    some ⟨apiKey.getD "", apiSecretKey.getD "", platform⟩
  else
    none

/-- A JavaScript number argument: an integer or `NaN` (the only
non-integer value the dispatcher's falsiness test distinguishes). -/
inductive JsNum where
  | nan : JsNum
  | int (i : Int) : JsNum
deriving DecidableEq

/-- `params.max || 50` (`src/index.ts` lines 266, 290, 314): `undefined`,
`0` and `NaN` are falsy and yield the default `50`. -/
def resolveMax : Option JsNum → Int
  | none => 50
  | some JsNum.nan => 50
  | some (JsNum.int i) => if i = 0 then 50 else i

/-- The loop body of `collectItems` (`src/index.ts` lines 232-237) with the
running length `len` of `items` made explicit.  One source element is
pulled per iteration; after pushing, the loop breaks when
`items.length >= max`.  Returns the collected items together with the
number of items pulled from the source. -/
def collectGo (max : Int) : List α → Nat → List α × Nat
  | [], _ => ([], 0)
  | x :: xs, len =>
      if max ≤ (len : Int) + 1 then ([x], 1)
      else
        let r := collectGo max xs (len + 1)
        (x :: r.1, r.2 + 1)

/-- `collectItems` (`src/index.ts` lines 228-238): drain the (finite) source
into a list, stopping as soon as `items.length >= max` holds after a push.
Second component counts the items pulled from the source. -/
def collectItems (source : List α) (max : Int) : List α × Nat :=
  collectGo max source 0

/-- A value thrown by the upstream client: an `Error` object carrying a
message, or any other value identified by its string form. -/
inductive Thrown where
  | error (message : String) : Thrown
  | other (stringForm : String) : Thrown
deriving DecidableEq

/-- `error instanceof Error ? error.message : String(error)`
(`src/index.ts` line 374). -/
def thrownText : Thrown → String
  | Thrown.error m => m
  | Thrown.other s => s

/-- The quick-job request body built at `src/index.ts` lines 337-341. -/
structure JobRequest where
  jobName : Option String
  componentUid : Option String
  vars : Option (List (String × String))
deriving DecidableEq

/-- One inbound tool-call argument set, with every field optional exactly as
the handler's `as`-casts allow. -/
structure ToolArgs where
  siteUid : Option String
  max : Option JsNum
  deviceUid : Option String
  alertUid : Option String
  jobName : Option String
  componentUid : Option String
  vars : Option (List (String × String))
  auditType : Option String
deriving DecidableEq

/-- An upstream client operation invocation, identifying the resource
method and its arguments. -/
inductive UpstreamCall where
  | sitesDevicesAll (siteUid : Option String) : UpstreamCall
  | accountDevicesAll : UpstreamCall
  | sitesAlertsOpenAll (siteUid : Option String) : UpstreamCall
  | accountAlertsOpenAll : UpstreamCall
  | devicesGet (deviceUid : Option String) : UpstreamCall
  | alertsResolve (alertUid : Option String) : UpstreamCall
  | accountSitesAll : UpstreamCall
  | sitesGet (siteUid : Option String) : UpstreamCall
  | devicesCreateQuickJob (deviceUid : Option String) (job : JobRequest) : UpstreamCall
  | auditDevice (deviceUid : Option String) : UpstreamCall
  | auditDeviceSoftware (deviceUid : Option String) : UpstreamCall
deriving DecidableEq

/-- Behaviour of one constructed upstream `DattoRmmClient`: each operation
either yields a value (for the `*All` iterables, the finite list of items
the iterable would produce) or throws. -/
structure UpstreamClient where
  sitesDevicesAll : Option String → Except Thrown (List Json)
  accountDevicesAll : Except Thrown (List Json)
  sitesAlertsOpenAll : Option String → Except Thrown (List Json)
  accountAlertsOpenAll : Except Thrown (List Json)
  devicesGet : Option String → Except Thrown Json
  alertsResolve : Option String → Except Thrown Json
  accountSitesAll : Except Thrown (List Json)
  sitesGet : Option String → Except Thrown Json
  devicesCreateQuickJob : Option String → JobRequest → Except Thrown Json
  auditDevice : Option String → Except Thrown Json
  auditDeviceSoftware : Option String → Except Thrown Json

/-- One element of a response's `content` array. -/
structure ContentItem where
  type : String
  text : String
deriving DecidableEq

/-- The tool-call response envelope.  The source leaves `isError` undefined
on success, which is falsy; it is modelled as `false`. -/
structure ToolResponse where
  content : List ContentItem
  isError : Bool
deriving DecidableEq

/-- Instrumentation of one tool-call dispatch: whether `createClient` ran,
the upstream operations invoked in order, and the bounds handed to
`collectItems`. -/
structure Trace where
  clientConstructed : Bool
  calls : List UpstreamCall
  collectBounds : List Int
deriving DecidableEq

/-- The fixed missing-credentials message (`src/index.ts` line 253). -/
def noCredentialsText : String :=
  "Error: No API credentials provided. Please configure your Datto RMM API key and secret via DATTO_API_KEY and DATTO_API_SECRET environment variables."

/-- The fixed missing-credentials response (`src/index.ts` lines 249-257). -/
def noCredentialsResponse : ToolResponse :=
  ⟨[⟨"text", noCredentialsText⟩], true⟩

/-- A successful response: the serialized payload as sole content, `isError`
unset (falsy). -/
def okResponse (j : Json) : ToolResponse :=
  ⟨[⟨"text", jsonStringify j⟩], false⟩

/-- The catch-clause response (`src/index.ts` lines 373-379). -/
def errorResponse (e : Thrown) : ToolResponse :=
  ⟨[⟨"text", "Error: " ++ thrownText e⟩], true⟩

/-- The names of the 8 recognized tools. -/
def toolNames : List String :=
  ["datto_list_devices", "datto_get_device", "datto_list_alerts",
   "datto_resolve_alert", "datto_list_sites", "datto_get_site",
   "datto_run_quickjob", "datto_get_device_audit"]

/-- One paginated case of the switch: invoke the iterable-returning
operation `call` whose outcome is `res`, collect up to `max` items, and
serialize them; a throw is routed to the uniform catch clause. -/
def runListCall (res : Except Thrown (List Json)) (call : UpstreamCall)
    (max : Int) : ToolResponse × Trace :=
  match res with
  | Except.ok items =>
      (okResponse (Json.arr (collectItems items max).1), ⟨true, [call], [max]⟩)
  | Except.error e => (errorResponse e, ⟨true, [call], [max]⟩)

/-- One single-result case of the switch: invoke the operation `call` whose
outcome is `res` and serialize the result; a throw is routed to the uniform
catch clause. -/
def runSingleCall (res : Except Thrown Json) (call : UpstreamCall) :
    ToolResponse × Trace :=
  match res with
  | Except.ok v => (okResponse v, ⟨true, [call], []⟩)
  | Except.error e => (errorResponse e, ⟨true, [call], []⟩)

/-- The `switch (name)` body inside the `try` block of the call-tool handler
(`src/index.ts` lines 262-379), including the uniform catch: an
`Except.error` from an upstream operation produces the catch clause's
response.  The returned `Trace` always has `clientConstructed = true`
because `createClient` runs before the switch (line 260). -/
def dispatchTool (client : UpstreamClient) (name : String) (args : ToolArgs) :
    ToolResponse × Trace :=
  if name = "datto_list_devices" then
    let max := resolveMax args.max
    if strTruthy args.siteUid then
      runListCall (client.sitesDevicesAll args.siteUid)
        (UpstreamCall.sitesDevicesAll args.siteUid) max
    else
      runListCall client.accountDevicesAll UpstreamCall.accountDevicesAll max
  else if name = "datto_get_device" then
    runSingleCall (client.devicesGet args.deviceUid)
      (UpstreamCall.devicesGet args.deviceUid)
  else if name = "datto_list_alerts" then
    let max := resolveMax args.max
    if strTruthy args.siteUid then
      runListCall (client.sitesAlertsOpenAll args.siteUid)
        (UpstreamCall.sitesAlertsOpenAll args.siteUid) max
    else
      runListCall client.accountAlertsOpenAll UpstreamCall.accountAlertsOpenAll max
  else if name = "datto_resolve_alert" then
    runSingleCall (client.alertsResolve args.alertUid)
      (UpstreamCall.alertsResolve args.alertUid)
  else if name = "datto_list_sites" then
    runListCall client.accountSitesAll UpstreamCall.accountSitesAll
      (resolveMax args.max)
  else if name = "datto_get_site" then
    runSingleCall (client.sitesGet args.siteUid) (UpstreamCall.sitesGet args.siteUid)
  else if name = "datto_run_quickjob" then
    let jobRequest : JobRequest := ⟨args.jobName, args.componentUid, args.vars⟩
    runSingleCall (client.devicesCreateQuickJob args.deviceUid jobRequest)
      (UpstreamCall.devicesCreateQuickJob args.deviceUid jobRequest)
  else if name = "datto_get_device_audit" then
    if args.auditType.getD "full" = "software" then
      runSingleCall (client.auditDeviceSoftware args.deviceUid)
        (UpstreamCall.auditDeviceSoftware args.deviceUid)
    else
      runSingleCall (client.auditDevice args.deviceUid)
        (UpstreamCall.auditDevice args.deviceUid)
  else
    (⟨[⟨"text", "Unknown tool: " ++ name⟩], true⟩, ⟨true, [], []⟩)

/-- The full `CallToolRequestSchema` handler (`src/index.ts` lines 244-380):
resolve credentials, short-circuit on `none`, otherwise construct the
client and dispatch. -/
def handleToolCall (env : Env) (client : UpstreamClient) (name : String)
    (args : ToolArgs) : ToolResponse × Trace :=
  match getCredentials env with
  | none => (noCredentialsResponse, ⟨false, [], []⟩)
  | some _ => dispatchTool client name args

/-- The error component of an `Except`, when present. -/
def errOf : Except ε α → Option ε
  | Except.error e => some e
  | Except.ok _ => none

/-- The thrown value, if any, that `client` produces for a given upstream
operation. -/
def clientThrows (client : UpstreamClient) : UpstreamCall → Option Thrown
  | UpstreamCall.sitesDevicesAll u => errOf (client.sitesDevicesAll u)
  | UpstreamCall.accountDevicesAll => errOf client.accountDevicesAll
  | UpstreamCall.sitesAlertsOpenAll u => errOf (client.sitesAlertsOpenAll u)
  | UpstreamCall.accountAlertsOpenAll => errOf client.accountAlertsOpenAll
  | UpstreamCall.devicesGet u => errOf (client.devicesGet u)
  | UpstreamCall.alertsResolve u => errOf (client.alertsResolve u)
  | UpstreamCall.accountSitesAll => errOf client.accountSitesAll
  | UpstreamCall.sitesGet u => errOf (client.sitesGet u)
  | UpstreamCall.devicesCreateQuickJob u j => errOf (client.devicesCreateQuickJob u j)
  | UpstreamCall.auditDevice u => errOf (client.auditDevice u)
  | UpstreamCall.auditDeviceSoftware u => errOf (client.auditDeviceSoftware u)

/-- An environment with no credential variables set. -/
def emptyEnv : Env := ⟨none, none, none, none, none⟩

/-- An environment with a key/secret pair and a valid platform. -/
def credEnv : Env := ⟨some "key-1", none, some "secret-1", none, some "merlot"⟩

/-- An argument set with every field absent. -/
def emptyArgs : ToolArgs := ⟨none, none, none, none, none, none, none, none⟩

/-- A concrete upstream client used to instantiate the theorems: the list
operations succeed and `devices.get` throws `Error("Device not found")`. -/
def demoClient : UpstreamClient where
  sitesDevicesAll := fun _ => Except.ok [Json.str "site-device"]
  accountDevicesAll := Except.ok [Json.str "device"]
  sitesAlertsOpenAll := fun _ => Except.ok [Json.str "site-alert"]
  accountAlertsOpenAll := Except.ok [Json.str "alert"]
  devicesGet := fun _ => Except.error (Thrown.error "Device not found")
  alertsResolve := fun _ => Except.ok Json.null
  accountSitesAll := Except.ok [Json.str "site"]
  sitesGet := fun _ => Except.ok Json.null
  devicesCreateQuickJob := fun _ _ => Except.ok Json.null
  auditDevice := fun _ => Except.ok Json.null
  auditDeviceSoftware := fun _ => Except.ok Json.null

/-- The effective bound of the collector loop entered with `len` items
already collected: the loop stops after one more item whenever
`max ≤ len + 1`, and otherwise after `max - len` more items. -/
def collectBound (max : Int) (len : Nat) : Nat :=
  if max ≤ (len : Int) + 1 then 1 else (max - (len : Int)).toNat

/-- Closed form of the collector loop for an arbitrary running length: it
returns the first `collectBound max len` elements of the source (all of it
when shorter) and pulls exactly as many items as it returns. -/
theorem collectGo_eq {α : Type u} (max : Int) :
    ∀ (source : List α) (len : Nat),
      collectGo max source len =
        (source.take (collectBound max len),
         (source.take (collectBound max len)).length) := by
  intro source
  induction source with
  | nil =>
      intro len
      simp [collectGo]
  | cons x xs ih =>
      intro len
      by_cases h : max ≤ (len : Int) + 1
      · simp only [collectGo, collectBound, if_pos h]
        rfl
      · have hb : collectBound max (len + 1) = (max - (len : Int)).toNat - 1 := by
          simp only [collectBound]
          split <;> omega
        have h4 : (max - (len : Int)).toNat = ((max - (len : Int)).toNat - 1) + 1 := by
          omega
        simp only [collectGo, if_neg h]
        rw [ih (len + 1), hb]
        simp only [collectBound, if_neg h]
        conv_rhs => rw [h4, List.take_succ_cons]
        rfl

/-- C1 (counterexample): on the one-element source with `max = 0`, the
collector pulls one item and returns it, refuting "`collect(source, 0)`
returns an empty sequence and never pulls from `source`" (the loop's
`items.length >= max` test only runs after the first push). -/
theorem collectItems_max_zero_counterexample :
    ¬ ((collectItems [(0 : Nat)] 0).1 = [] ∧ (collectItems [(0 : Nat)] 0).2 = 0) := by
  decide

/-- C1 (amended): for every `max ≥ 1` and finite source, `collectItems`
returns the first `min(n, max)` items in production order and pulls exactly
that many items (hence at most `max`); for `max ≤ 0` — in particular
`max = 0` — it behaves as bound `1`: on a nonempty source it pulls and
returns exactly the first item, and on an empty source it returns the
empty list with no pulls. -/
theorem collectItems_take_bound {α : Type u} (source : List α) (max : Int) :
    (collectItems source max).1 = source.take (if max ≤ 1 then 1 else max.toNat) ∧
    (collectItems source max).2 =
      (source.take (if max ≤ 1 then 1 else max.toNat)).length := by
  have hb : collectBound max 0 = if max ≤ 1 then 1 else max.toNat := by
    simp only [collectBound]
    norm_num
  rw [collectItems, collectGo_eq max source 0, hb]
  exact ⟨rfl, rfl⟩

/-- With a truthy key and secret, `getCredentials` reduces to the record it
builds at `src/index.ts` line 63. -/
theorem getCredentials_eq_some (env : Env)
    (hk : strTruthy (jsOr env.DATTO_API_KEY env.X_API_KEY) = true)
    (hs : strTruthy (jsOr env.DATTO_API_SECRET env.X_API_SECRET) = true) :
    getCredentials env =
      some ⟨(jsOr env.DATTO_API_KEY env.X_API_KEY).getD "",
        (jsOr env.DATTO_API_SECRET env.X_API_SECRET).getD "",
        if (jsOr env.DATTO_PLATFORM (some "concord")).getD "concord" ∈ validPlatforms
        then (jsOr env.DATTO_PLATFORM (some "concord")).getD "concord"
        else "concord"⟩ := by
  simp only [getCredentials]
  rw [hk, hs]
  simp

/-- C2: when the key and secret resolve, `getCredentials` yields a
credentials record whose platform is the supplied string when it is one of
the six recognized values, and `"concord"` for every other supplied string
and when no platform is supplied; no case fails. -/
theorem getCredentials_platform_resolution (env : Env)
    (hk : strTruthy (jsOr env.DATTO_API_KEY env.X_API_KEY) = true)
    (hs : strTruthy (jsOr env.DATTO_API_SECRET env.X_API_SECRET) = true) :
    (getCredentials env).isSome = true ∧
    (∀ p, env.DATTO_PLATFORM = some p → p ∈ validPlatforms →
        (getCredentials env).map DattoCredentials.platform = some p) ∧
    (∀ p, env.DATTO_PLATFORM = some p → p ∉ validPlatforms →
        (getCredentials env).map DattoCredentials.platform = some "concord") ∧
    (env.DATTO_PLATFORM = none →
        (getCredentials env).map DattoCredentials.platform = some "concord") := by
  rw [getCredentials_eq_some env hk hs]
  refine ⟨rfl, ?_, ?_, ?_⟩
  · intro p hp hmem
    have hne : p ≠ "" := by
      intro he
      rw [he] at hmem
      exact absurd hmem (by decide)
    have ht : strTruthy (some p) = true := by
      simp [strTruthy, hne]
    rw [hp]
    simp [jsOr, ht, hmem]
  · intro p hp hmem
    rw [hp]
    by_cases hne : p = ""
    · subst hne
      have ht : strTruthy (some "") = false := by decide
      simp [jsOr, ht]
    · have ht : strTruthy (some p) = true := by
        simp [strTruthy, hne]
      simp [jsOr, ht, hmem]
  · intro hp
    rw [hp]
    have ht : strTruthy (none : Option String) = false := by decide
    simp [jsOr, ht]

/-- C2 (witness): instantiation at a concrete environment carrying a
key/secret pair and platform `"merlot"`. -/
theorem getCredentials_platform_resolution_witness :
    (getCredentials credEnv).isSome = true ∧
    (∀ p, credEnv.DATTO_PLATFORM = some p → p ∈ validPlatforms →
        (getCredentials credEnv).map DattoCredentials.platform = some p) ∧
    (∀ p, credEnv.DATTO_PLATFORM = some p → p ∉ validPlatforms →
        (getCredentials credEnv).map DattoCredentials.platform = some "concord") ∧
    (credEnv.DATTO_PLATFORM = none →
        (getCredentials credEnv).map DattoCredentials.platform = some "concord") :=
  getCredentials_platform_resolution credEnv (by decide) (by decide)

/-- C3: when the resolved API key or the resolved API secret is falsy after
considering both the `DATTO_*` and `X_*` pairs, `getCredentials` returns
`none`, whatever the platform variable holds. -/
theorem getCredentials_missing_none (env : Env)
    (h : strTruthy (jsOr env.DATTO_API_KEY env.X_API_KEY) = false ∨
         strTruthy (jsOr env.DATTO_API_SECRET env.X_API_SECRET) = false) :
    getCredentials env = none := by
  simp only [getCredentials]
  rcases h with h | h <;> simp [h]

/-- C3 (witness): a key with no secret and an invalid platform resolves to
`none`. -/
theorem getCredentials_missing_none_witness :
    getCredentials ⟨some "key-1", none, none, none, some "mars"⟩ = none :=
  getCredentials_missing_none ⟨some "key-1", none, none, none, some "mars"⟩
    (Or.inr (by decide))

/-- A paginated case always records exactly its one upstream call. -/
theorem runListCall_calls (res : Except Thrown (List Json)) (call : UpstreamCall)
    (max : Int) : (runListCall res call max).2.calls = [call] := by
  cases res <;> rfl

/-- A single-result case always records exactly its one upstream call. -/
theorem runSingleCall_calls (res : Except Thrown Json) (call : UpstreamCall) :
    (runSingleCall res call).2.calls = [call] := by
  cases res <;> rfl

/-- A paginated case whose operation throws produces the catch response. -/
theorem runListCall_error (res : Except Thrown (List Json)) (call : UpstreamCall)
    (max : Int) (e : Thrown) (h : errOf res = some e) :
    (runListCall res call max).1 = errorResponse e := by
  cases res with
  | ok items => simp [errOf] at h
  | error e' =>
      simp only [errOf, Option.some.injEq] at h
      subst h
      rfl

/-- A single-result case whose operation throws produces the catch
response. -/
theorem runSingleCall_error (res : Except Thrown Json) (call : UpstreamCall)
    (e : Thrown) (h : errOf res = some e) :
    (runSingleCall res call).1 = errorResponse e := by
  cases res with
  | ok v => simp [errOf] at h
  | error e' =>
      simp only [errOf, Option.some.injEq] at h
      subst h
      rfl

/-- A paginated case either succeeds (`isError` unset) or is exactly the
catch response for some thrown value. -/
theorem runListCall_shape (res : Except Thrown (List Json)) (call : UpstreamCall)
    (max : Int) :
    (runListCall res call max).1.isError = false ∨
    ∃ e, (runListCall res call max).1 = errorResponse e := by
  cases res with
  | ok items => exact Or.inl rfl
  | error e => exact Or.inr ⟨e, rfl⟩

/-- A single-result case either succeeds (`isError` unset) or is exactly
the catch response for some thrown value. -/
theorem runSingleCall_shape (res : Except Thrown Json) (call : UpstreamCall) :
    (runSingleCall res call).1.isError = false ∨
    ∃ e, (runSingleCall res call).1 = errorResponse e := by
  cases res with
  | ok v => exact Or.inl rfl
  | error e => exact Or.inr ⟨e, rfl⟩

/-- C4: with no credentials resolved, every tool call (any name, any
arguments, any client behaviour) returns the one fixed `isError` response
and neither constructs a client nor invokes any upstream operation. -/
theorem handleToolCall_no_credentials (env : Env) (client : UpstreamClient)
    (name : String) (args : ToolArgs) (h : getCredentials env = none) :
    handleToolCall env client name args =
      (noCredentialsResponse, ⟨false, [], []⟩) := by
  simp [handleToolCall, h]

/-- C4 (witness): instantiation at the empty environment and an arbitrary
tool name. -/
theorem handleToolCall_no_credentials_witness :
    handleToolCall emptyEnv demoClient "datto_list_devices" emptyArgs =
      (noCredentialsResponse, ⟨false, [], []⟩) :=
  handleToolCall_no_credentials emptyEnv demoClient "datto_list_devices" emptyArgs
    (by decide)

/-- C5: with credentials resolved, a name outside the 8 recognized tools
returns `isError = true` with sole content `"Unknown tool: <name>"` (with
the supplied name interpolated), invoking nothing upstream. -/
theorem handleToolCall_unknown_tool (env : Env) (client : UpstreamClient)
    (name : String) (args : ToolArgs) (c : DattoCredentials)
    (hc : getCredentials env = some c) (hn : name ∉ toolNames) :
    handleToolCall env client name args =
      (⟨[⟨"text", "Unknown tool: " ++ name⟩], true⟩, ⟨true, [], []⟩) := by
  simp only [toolNames, List.mem_cons, List.not_mem_nil, or_false, not_or] at hn
  obtain ⟨h1, h2, h3, h4, h5, h6, h7, h8⟩ := hn
  simp only [handleToolCall, hc]
  simp [dispatchTool, h1, h2, h3, h4, h5, h6, h7, h8]

/-- C5 (witness): instantiation at the name `"datto_reboot_device"`. -/
theorem handleToolCall_unknown_tool_witness :
    handleToolCall credEnv demoClient "datto_reboot_device" emptyArgs =
      (⟨[⟨"text", "Unknown tool: " ++ "datto_reboot_device"⟩], true⟩,
       ⟨true, [], []⟩) :=
  handleToolCall_unknown_tool credEnv demoClient "datto_reboot_device" emptyArgs
    ⟨"key-1", "secret-1", "merlot"⟩ (by decide) (by decide)

/-- C7: with credentials resolved, the device-audit tool invokes exactly
the software-audit operation when `auditType` is the string `"software"`,
and exactly the full-audit operation for every other value and when the
argument is absent; either way it is the branch's only upstream call and no
validation failure occurs. -/
theorem handleToolCall_device_audit (env : Env) (client : UpstreamClient)
    (args : ToolArgs) (c : DattoCredentials) (hc : getCredentials env = some c) :
    (args.auditType = some "software" →
      (handleToolCall env client "datto_get_device_audit" args).2.calls =
        [UpstreamCall.auditDeviceSoftware args.deviceUid]) ∧
    (args.auditType ≠ some "software" →
      (handleToolCall env client "datto_get_device_audit" args).2.calls =
        [UpstreamCall.auditDevice args.deviceUid]) := by
  simp only [handleToolCall, hc]
  constructor
  · intro ha
    simp only [dispatchTool, ha]
    simp [runSingleCall_calls]
  · intro ha
    have hfull : (args.auditType.getD "full" = "software") = False := by
      cases hat : args.auditType with
      | none => simp
      | some s =>
          simp only [Option.getD_some, eq_iff_iff, iff_false]
          intro hcontra
          exact ha (by rw [hat, hcontra])
    simp only [dispatchTool]
    simp [hfull, runSingleCall_calls]

/-- C7 (witness): instantiation at `auditType = "software"` and at an
argument set with `auditType` absent. -/
theorem handleToolCall_device_audit_witness :
    ((⟨none, none, some "dev-1", none, none, none, none, some "software"⟩ :
        ToolArgs).auditType = some "software" →
      (handleToolCall credEnv demoClient "datto_get_device_audit"
          ⟨none, none, some "dev-1", none, none, none, none, some "software"⟩).2.calls =
        [UpstreamCall.auditDeviceSoftware
          (⟨none, none, some "dev-1", none, none, none, none, some "software"⟩ :
              ToolArgs).deviceUid]) ∧
    ((⟨none, none, some "dev-1", none, none, none, none, some "software"⟩ :
        ToolArgs).auditType ≠ some "software" →
      (handleToolCall credEnv demoClient "datto_get_device_audit"
          ⟨none, none, some "dev-1", none, none, none, none, some "software"⟩).2.calls =
        [UpstreamCall.auditDevice
          (⟨none, none, some "dev-1", none, none, none, none, some "software"⟩ :
              ToolArgs).deviceUid]) :=
  handleToolCall_device_audit credEnv demoClient
    ⟨none, none, some "dev-1", none, none, none, none, some "software"⟩
    ⟨"key-1", "secret-1", "merlot"⟩ (by decide)

/-- C8 (counterexample): with credentials resolved and the `siteUid`
argument present but equal to the empty string, `datto_list_devices`
invokes the account-wide device listing, not the site-scoped one: the
branch tests JavaScript truthiness (`if (params.siteUid)`), not presence. -/
theorem listDevices_empty_siteUid_counterexample :
    (⟨some "", none, none, none, none, none, none, none⟩ : ToolArgs).siteUid =
        some "" ∧
    (handleToolCall credEnv demoClient "datto_list_devices"
        ⟨some "", none, none, none, none, none, none, none⟩).2.calls =
      [UpstreamCall.accountDevicesAll] ∧
    (handleToolCall credEnv demoClient "datto_list_devices"
        ⟨some "", none, none, none, none, none, none, none⟩).2.calls ≠
      [UpstreamCall.sitesDevicesAll (some "")] := by
  decide

/-- C8 (amended): with credentials resolved, a truthy (present and
non-empty) `siteUid` makes `datto_list_devices` invoke exactly the
site-scoped device listing with that `siteUid` and `datto_list_alerts`
exactly the site-scoped open-alert listing; a falsy `siteUid` (absent or
empty) makes each invoke exactly its account-wide listing. -/
theorem handleToolCall_site_scoping (env : Env) (client : UpstreamClient)
    (args : ToolArgs) (c : DattoCredentials) (hc : getCredentials env = some c) :
    (strTruthy args.siteUid = true →
      (handleToolCall env client "datto_list_devices" args).2.calls =
        [UpstreamCall.sitesDevicesAll args.siteUid] ∧
      (handleToolCall env client "datto_list_alerts" args).2.calls =
        [UpstreamCall.sitesAlertsOpenAll args.siteUid]) ∧
    (strTruthy args.siteUid = false →
      (handleToolCall env client "datto_list_devices" args).2.calls =
        [UpstreamCall.accountDevicesAll] ∧
      (handleToolCall env client "datto_list_alerts" args).2.calls =
        [UpstreamCall.accountAlertsOpenAll]) := by
  simp only [handleToolCall, hc]
  constructor
  · intro hsite
    constructor
    · simp only [dispatchTool, hsite]
      simp [runListCall_calls]
    · simp only [dispatchTool, hsite]
      simp [runListCall_calls]
  · intro hsite
    constructor
    · simp only [dispatchTool, hsite]
      simp [runListCall_calls]
    · simp only [dispatchTool, hsite]
      simp [runListCall_calls]

/-- C8 (witness): instantiation at a truthy `siteUid = "site-1"`. -/
theorem handleToolCall_site_scoping_witness :
    (strTruthy (⟨some "site-1", none, none, none, none, none, none, none⟩ :
          ToolArgs).siteUid = true →
      (handleToolCall credEnv demoClient "datto_list_devices"
          ⟨some "site-1", none, none, none, none, none, none, none⟩).2.calls =
        [UpstreamCall.sitesDevicesAll
          (⟨some "site-1", none, none, none, none, none, none, none⟩ :
              ToolArgs).siteUid] ∧
      (handleToolCall credEnv demoClient "datto_list_alerts"
          ⟨some "site-1", none, none, none, none, none, none, none⟩).2.calls =
        [UpstreamCall.sitesAlertsOpenAll
          (⟨some "site-1", none, none, none, none, none, none, none⟩ :
              ToolArgs).siteUid]) ∧
    (strTruthy (⟨some "site-1", none, none, none, none, none, none, none⟩ :
          ToolArgs).siteUid = false →
      (handleToolCall credEnv demoClient "datto_list_devices"
          ⟨some "site-1", none, none, none, none, none, none, none⟩).2.calls =
        [UpstreamCall.accountDevicesAll] ∧
      (handleToolCall credEnv demoClient "datto_list_alerts"
          ⟨some "site-1", none, none, none, none, none, none, none⟩).2.calls =
        [UpstreamCall.accountAlertsOpenAll]) :=
  handleToolCall_site_scoping credEnv demoClient
    ⟨some "site-1", none, none, none, none, none, none, none⟩
    ⟨"key-1", "secret-1", "merlot"⟩ (by decide)

/-- A paginated case always records exactly the one bound it hands to the
collector. -/
theorem runListCall_bounds (res : Except Thrown (List Json)) (call : UpstreamCall)
    (max : Int) : (runListCall res call max).2.collectBounds = [max] := by
  cases res <;> rfl

/-- C10: with credentials resolved and a falsy `max` argument (absent, `0`
or `NaN`), each of the three listing tools hands the default bound `50` to
the bounded collector; in particular, when the account-wide site listing
succeeds with `items`, `datto_list_sites` returns the first
`min(length items, 50)` items rather than an empty list. -/
theorem handleToolCall_falsy_max_default (env : Env) (client : UpstreamClient)
    (args : ToolArgs) (c : DattoCredentials) (items : List Json)
    (hc : getCredentials env = some c)
    (hmax : args.max = none ∨ args.max = some (JsNum.int 0) ∨
            args.max = some JsNum.nan)
    (hsites : client.accountSitesAll = Except.ok items) :
    (handleToolCall env client "datto_list_devices" args).2.collectBounds = [50] ∧
    (handleToolCall env client "datto_list_alerts" args).2.collectBounds = [50] ∧
    (handleToolCall env client "datto_list_sites" args).2.collectBounds = [50] ∧
    (handleToolCall env client "datto_list_sites" args).1 =
      okResponse (Json.arr (collectItems items 50).1) := by
  have hm : resolveMax args.max = 50 := by
    rcases hmax with h | h | h <;> simp [resolveMax, h]
  simp only [handleToolCall, hc]
  refine ⟨?_, ?_, ?_, ?_⟩
  · cases hsite : strTruthy args.siteUid <;>
      simp [dispatchTool, hsite, hm, runListCall_bounds]
  · cases hsite : strTruthy args.siteUid <;>
      simp [dispatchTool, hsite, hm, runListCall_bounds]
  · simp [dispatchTool, hm, runListCall_bounds]
  · simp only [dispatchTool, hm, hsites]
    simp [runListCall]

/-- C10 (witness): instantiation at `max = 0` with the demo client. -/
theorem handleToolCall_falsy_max_default_witness :
    (handleToolCall credEnv demoClient "datto_list_devices"
        ⟨none, some (JsNum.int 0), none, none, none, none, none, none⟩).2.collectBounds =
      [50] ∧
    (handleToolCall credEnv demoClient "datto_list_alerts"
        ⟨none, some (JsNum.int 0), none, none, none, none, none, none⟩).2.collectBounds =
      [50] ∧
    (handleToolCall credEnv demoClient "datto_list_sites"
        ⟨none, some (JsNum.int 0), none, none, none, none, none, none⟩).2.collectBounds =
      [50] ∧
    (handleToolCall credEnv demoClient "datto_list_sites"
        ⟨none, some (JsNum.int 0), none, none, none, none, none, none⟩).1 =
      okResponse (Json.arr (collectItems [Json.str "site"] 50).1) :=
  handleToolCall_falsy_max_default credEnv demoClient
    ⟨none, some (JsNum.int 0), none, none, none, none, none, none⟩
    ⟨"key-1", "secret-1", "merlot"⟩ [Json.str "site"] (by decide)
    (Or.inr (Or.inl rfl)) rfl

/-- C6: with credentials resolved, whenever a dispatch performed exactly one
upstream operation and that operation throws value `e`, the response is the
catch clause's envelope: `isError = true` with sole content
`"Error: " ++ (e.message when e is an Error, else String(e))`; nothing
escapes the dispatch boundary. -/
theorem handleToolCall_upstream_error (env : Env) (client : UpstreamClient)
    (name : String) (args : ToolArgs) (c : DattoCredentials)
    (call : UpstreamCall) (e : Thrown) (hc : getCredentials env = some c)
    (hcalls : (handleToolCall env client name args).2.calls = [call])
    (hthrow : clientThrows client call = some e) :
    (handleToolCall env client name args).1 = errorResponse e := by
  simp only [handleToolCall, hc] at hcalls ⊢
  by_cases h1 : name = "datto_list_devices"
  · subst h1
    cases hsite : strTruthy args.siteUid with
    | true =>
        simp [dispatchTool, hsite, runListCall_calls] at hcalls ⊢
        subst hcalls
        exact runListCall_error _ _ _ _ hthrow
    | false =>
        simp [dispatchTool, hsite, runListCall_calls] at hcalls ⊢
        subst hcalls
        exact runListCall_error _ _ _ _ hthrow
  by_cases h2 : name = "datto_get_device"
  · subst h2
    simp [dispatchTool, runSingleCall_calls] at hcalls ⊢
    subst hcalls
    exact runSingleCall_error _ _ _ hthrow
  by_cases h3 : name = "datto_list_alerts"
  · subst h3
    cases hsite : strTruthy args.siteUid with
    | true =>
        simp [dispatchTool, hsite, runListCall_calls] at hcalls ⊢
        subst hcalls
        exact runListCall_error _ _ _ _ hthrow
    | false =>
        simp [dispatchTool, hsite, runListCall_calls] at hcalls ⊢
        subst hcalls
        exact runListCall_error _ _ _ _ hthrow
  by_cases h4 : name = "datto_resolve_alert"
  · subst h4
    simp [dispatchTool, runSingleCall_calls] at hcalls ⊢
    subst hcalls
    exact runSingleCall_error _ _ _ hthrow
  by_cases h5 : name = "datto_list_sites"
  · subst h5
    simp [dispatchTool, runListCall_calls] at hcalls ⊢
    subst hcalls
    exact runListCall_error _ _ _ _ hthrow
  by_cases h6 : name = "datto_get_site"
  · subst h6
    simp [dispatchTool, runSingleCall_calls] at hcalls ⊢
    subst hcalls
    exact runSingleCall_error _ _ _ hthrow
  by_cases h7 : name = "datto_run_quickjob"
  · subst h7
    simp [dispatchTool, runSingleCall_calls] at hcalls ⊢
    subst hcalls
    exact runSingleCall_error _ _ _ hthrow
  by_cases h8 : name = "datto_get_device_audit"
  · subst h8
    by_cases haud : args.auditType.getD "full" = "software"
    · simp [dispatchTool, haud, runSingleCall_calls] at hcalls ⊢
      subst hcalls
      exact runSingleCall_error _ _ _ hthrow
    · simp [dispatchTool, haud, runSingleCall_calls] at hcalls ⊢
      subst hcalls
      exact runSingleCall_error _ _ _ hthrow
  simp [dispatchTool, h1, h2, h3, h4, h5, h6, h7, h8] at hcalls

/-- C6 (witness): instantiation at `datto_get_device` against the demo
client, whose `devices.get` rejects with `Error("Device not found")`. -/
theorem handleToolCall_upstream_error_witness :
    (handleToolCall credEnv demoClient "datto_get_device"
        ⟨none, none, some "dev-1", none, none, none, none, none⟩).1 =
      errorResponse (Thrown.error "Device not found") :=
  handleToolCall_upstream_error credEnv demoClient "datto_get_device"
    ⟨none, none, some "dev-1", none, none, none, none, none⟩
    ⟨"key-1", "secret-1", "merlot"⟩ (UpstreamCall.devicesGet (some "dev-1"))
    (Thrown.error "Device not found") (by decide) (by decide) (by decide)

/-- C9: every `isError = true` response of the tool-call handler carries
exactly one text content element, and that text is an error message — the
fixed missing-credentials message, the unknown-tool message for the
supplied name, or the catch clause's `"Error: <thrown>"` wrapping — never a
domain payload. -/
theorem handleToolCall_error_sole_content (env : Env) (client : UpstreamClient)
    (name : String) (args : ToolArgs)
    (h : (handleToolCall env client name args).1.isError = true) :
    ∃ t, (handleToolCall env client name args).1.content = [⟨"text", t⟩] ∧
      (t = noCredentialsText ∨ t = "Unknown tool: " ++ name ∨
        ∃ e, t = "Error: " ++ thrownText e) := by
  cases hc : getCredentials env with
  | none =>
      simp only [handleToolCall, hc]
      exact ⟨noCredentialsText, rfl, Or.inl rfl⟩
  | some c =>
      simp only [handleToolCall, hc] at h ⊢
      by_cases h1 : name = "datto_list_devices"
      · subst h1
        cases hsite : strTruthy args.siteUid with
        | true =>
            have hd : dispatchTool client "datto_list_devices" args =
                runListCall (client.sitesDevicesAll args.siteUid)
                  (UpstreamCall.sitesDevicesAll args.siteUid)
                  (resolveMax args.max) := by
              simp [dispatchTool, hsite]
            rw [hd] at h ⊢
            rcases runListCall_shape (client.sitesDevicesAll args.siteUid)
                (UpstreamCall.sitesDevicesAll args.siteUid) (resolveMax args.max)
              with hok | ⟨e, herr⟩
            · rw [hok] at h
              exact absurd h Bool.false_ne_true
            · rw [herr]
              exact ⟨"Error: " ++ thrownText e, rfl, Or.inr (Or.inr ⟨e, rfl⟩)⟩
        | false =>
            have hd : dispatchTool client "datto_list_devices" args =
                runListCall client.accountDevicesAll
                  UpstreamCall.accountDevicesAll (resolveMax args.max) := by
              simp [dispatchTool, hsite]
            rw [hd] at h ⊢
            rcases runListCall_shape client.accountDevicesAll
                UpstreamCall.accountDevicesAll (resolveMax args.max)
              with hok | ⟨e, herr⟩
            · rw [hok] at h
              exact absurd h Bool.false_ne_true
            · rw [herr]
              exact ⟨"Error: " ++ thrownText e, rfl, Or.inr (Or.inr ⟨e, rfl⟩)⟩
      by_cases h2 : name = "datto_get_device"
      · subst h2
        have hd : dispatchTool client "datto_get_device" args =
            runSingleCall (client.devicesGet args.deviceUid)
              (UpstreamCall.devicesGet args.deviceUid) := by
          simp [dispatchTool]
        rw [hd] at h ⊢
        rcases runSingleCall_shape (client.devicesGet args.deviceUid)
            (UpstreamCall.devicesGet args.deviceUid) with hok | ⟨e, herr⟩
        · rw [hok] at h
          exact absurd h Bool.false_ne_true
        · rw [herr]
          exact ⟨"Error: " ++ thrownText e, rfl, Or.inr (Or.inr ⟨e, rfl⟩)⟩
      by_cases h3 : name = "datto_list_alerts"
      · subst h3
        cases hsite : strTruthy args.siteUid with
        | true =>
            have hd : dispatchTool client "datto_list_alerts" args =
                runListCall (client.sitesAlertsOpenAll args.siteUid)
                  (UpstreamCall.sitesAlertsOpenAll args.siteUid)
                  (resolveMax args.max) := by
              simp [dispatchTool, hsite]
            rw [hd] at h ⊢
            rcases runListCall_shape (client.sitesAlertsOpenAll args.siteUid)
                (UpstreamCall.sitesAlertsOpenAll args.siteUid) (resolveMax args.max)
              with hok | ⟨e, herr⟩
            · rw [hok] at h
              exact absurd h Bool.false_ne_true
            · rw [herr]
              exact ⟨"Error: " ++ thrownText e, rfl, Or.inr (Or.inr ⟨e, rfl⟩)⟩
        | false =>
            have hd : dispatchTool client "datto_list_alerts" args =
                runListCall client.accountAlertsOpenAll
                  UpstreamCall.accountAlertsOpenAll (resolveMax args.max) := by
              simp [dispatchTool, hsite]
            rw [hd] at h ⊢
            rcases runListCall_shape client.accountAlertsOpenAll
                UpstreamCall.accountAlertsOpenAll (resolveMax args.max)
              with hok | ⟨e, herr⟩
            · rw [hok] at h
              exact absurd h Bool.false_ne_true
            · rw [herr]
              exact ⟨"Error: " ++ thrownText e, rfl, Or.inr (Or.inr ⟨e, rfl⟩)⟩
      by_cases h4 : name = "datto_resolve_alert"
      · subst h4
        have hd : dispatchTool client "datto_resolve_alert" args =
            runSingleCall (client.alertsResolve args.alertUid)
              (UpstreamCall.alertsResolve args.alertUid) := by
          simp [dispatchTool]
        rw [hd] at h ⊢
        rcases runSingleCall_shape (client.alertsResolve args.alertUid)
            (UpstreamCall.alertsResolve args.alertUid) with hok | ⟨e, herr⟩
        · rw [hok] at h
          exact absurd h Bool.false_ne_true
        · rw [herr]
          exact ⟨"Error: " ++ thrownText e, rfl, Or.inr (Or.inr ⟨e, rfl⟩)⟩
      by_cases h5 : name = "datto_list_sites"
      · subst h5
        have hd : dispatchTool client "datto_list_sites" args =
            runListCall client.accountSitesAll UpstreamCall.accountSitesAll
              (resolveMax args.max) := by
          simp [dispatchTool]
        rw [hd] at h ⊢
        rcases runListCall_shape client.accountSitesAll
            UpstreamCall.accountSitesAll (resolveMax args.max) with hok | ⟨e, herr⟩
        · rw [hok] at h
          exact absurd h Bool.false_ne_true
        · rw [herr]
          exact ⟨"Error: " ++ thrownText e, rfl, Or.inr (Or.inr ⟨e, rfl⟩)⟩
      by_cases h6 : name = "datto_get_site"
      · subst h6
        have hd : dispatchTool client "datto_get_site" args =
            runSingleCall (client.sitesGet args.siteUid)
              (UpstreamCall.sitesGet args.siteUid) := by
          simp [dispatchTool]
        rw [hd] at h ⊢
        rcases runSingleCall_shape (client.sitesGet args.siteUid)
            (UpstreamCall.sitesGet args.siteUid) with hok | ⟨e, herr⟩
        · rw [hok] at h
          exact absurd h Bool.false_ne_true
        · rw [herr]
          exact ⟨"Error: " ++ thrownText e, rfl, Or.inr (Or.inr ⟨e, rfl⟩)⟩
      by_cases h7 : name = "datto_run_quickjob"
      · subst h7
        have hd : dispatchTool client "datto_run_quickjob" args =
            runSingleCall
              (client.devicesCreateQuickJob args.deviceUid
                ⟨args.jobName, args.componentUid, args.vars⟩)
              (UpstreamCall.devicesCreateQuickJob args.deviceUid
                ⟨args.jobName, args.componentUid, args.vars⟩) := by
          simp [dispatchTool]
        rw [hd] at h ⊢
        rcases runSingleCall_shape
            (client.devicesCreateQuickJob args.deviceUid
              ⟨args.jobName, args.componentUid, args.vars⟩)
            (UpstreamCall.devicesCreateQuickJob args.deviceUid
              ⟨args.jobName, args.componentUid, args.vars⟩) with hok | ⟨e, herr⟩
        · rw [hok] at h
          exact absurd h Bool.false_ne_true
        · rw [herr]
          exact ⟨"Error: " ++ thrownText e, rfl, Or.inr (Or.inr ⟨e, rfl⟩)⟩
      by_cases h8 : name = "datto_get_device_audit"
      · subst h8
        by_cases haud : args.auditType.getD "full" = "software"
        · have hd : dispatchTool client "datto_get_device_audit" args =
              runSingleCall (client.auditDeviceSoftware args.deviceUid)
                (UpstreamCall.auditDeviceSoftware args.deviceUid) := by
            simp [dispatchTool, haud]
          rw [hd] at h ⊢
          rcases runSingleCall_shape (client.auditDeviceSoftware args.deviceUid)
              (UpstreamCall.auditDeviceSoftware args.deviceUid) with hok | ⟨e, herr⟩
          · rw [hok] at h
            exact absurd h Bool.false_ne_true
          · rw [herr]
            exact ⟨"Error: " ++ thrownText e, rfl, Or.inr (Or.inr ⟨e, rfl⟩)⟩
        · have hd : dispatchTool client "datto_get_device_audit" args =
              runSingleCall (client.auditDevice args.deviceUid)
                (UpstreamCall.auditDevice args.deviceUid) := by
            simp [dispatchTool, haud]
          rw [hd] at h ⊢
          rcases runSingleCall_shape (client.auditDevice args.deviceUid)
              (UpstreamCall.auditDevice args.deviceUid) with hok | ⟨e, herr⟩
          · rw [hok] at h
            exact absurd h Bool.false_ne_true
          · rw [herr]
            exact ⟨"Error: " ++ thrownText e, rfl, Or.inr (Or.inr ⟨e, rfl⟩)⟩
      have hd : dispatchTool client name args =
          (⟨[⟨"text", "Unknown tool: " ++ name⟩], true⟩, ⟨true, [], []⟩) := by
        simp [dispatchTool, h1, h2, h3, h4, h5, h6, h7, h8]
      rw [hd]
      exact ⟨"Unknown tool: " ++ name, rfl, Or.inr (Or.inl rfl)⟩

/-- C9 (witness): instantiation at the missing-credentials error response. -/
theorem handleToolCall_error_sole_content_witness :
    ∃ t, (handleToolCall emptyEnv demoClient "datto_list_devices"
          emptyArgs).1.content = [⟨"text", t⟩] ∧
      (t = noCredentialsText ∨ t = "Unknown tool: " ++ "datto_list_devices" ∨
        ∃ e, t = "Error: " ++ thrownText e) :=
  handleToolCall_error_sole_content emptyEnv demoClient "datto_list_devices"
    emptyArgs (by decide)
